import Mathlib

/-!
Shallow embedding of the Test Execution Orchestrator of this repository
(`src/agents/test_execution_agent.py`), together with proofs about its
discovery, parsing, retry, aggregation, reporting and statistics logic.

Modelling conventions:
* Python strings are Lean `String`s; the string operations the code uses
  (`split`, `strip`, `startswith`, substring containment, `lower`) are
  re-implemented over the character list `String.data` so that every
  definition evaluates by kernel reduction.
* Python floats (durations) are modelled as `ℚ`; the only arithmetic the
  code performs on them is addition, division by constants and
  multiplication by 100, all exact here.
* Python exceptions are the explicit `PyExn` type; fallible code returns
  `Except PyExn α`.  `json.loads` and the filesystem are oracles passed as
  parameters (`JsonLoads`, `Locator`, `FSView`, the per-file `RunOutcome`).
* `TestStatus`, `TestResult` and `TestSuiteResult` are imported by the agent
  from `models.test_case`, which does not define them in the sources; they
  are modelled from the spec (§3) where so marked.
-/

namespace QA

/-! ### Python-style string primitives (kernel-reducible) -/

/-- Lexicographic (code-point) comparison of character lists, the order
Python uses for `sorted` on strings/paths. -/
def lexLe : List Char → List Char → Bool
  | [], _ => true
  | _ :: _, [] => false
  | c :: cs, d :: ds =>
    if c.toNat < d.toNat then true
    else if d.toNat < c.toNat then false
    else lexLe cs ds

/-- `pyStrLe a b` is Python `a <= b` on strings. -/
def pyStrLe (a b : String) : Bool := lexLe a.data b.data

/-- Does the first list start with the second (pattern)? -/
def listStartsWith : List Char → List Char → Bool
  | _, [] => true
  | [], _ :: _ => false
  | c :: cs, d :: ds => c = d && listStartsWith cs ds

/-- Python substring containment `pat in hay` over character lists. -/
def containsSub (pat : List Char) : List Char → Bool
  | [] => listStartsWith [] pat
  | c :: cs => listStartsWith (c :: cs) pat || containsSub pat cs

/-- Python `pat in s` for strings. -/
def pyContains (s pat : String) : Bool := containsSub pat.data s.data

/-- The whitespace characters Python `str.strip` removes. -/
def isPySpace (c : Char) : Bool :=
  c = ' ' || c = '\t' || c = '\n' || c = '\r' || c = '\x0b' || c = '\x0c'

/-- Python `str.strip` on a character list. -/
def stripChars (cs : List Char) : List Char :=
  ((cs.dropWhile isPySpace).reverse.dropWhile isPySpace).reverse

/-- Split a character list on a separator character, Python `str.split(sep)`. -/
def splitOnChar (sep : Char) : List Char → List (List Char)
  | [] => [[]]
  | c :: cs =>
    match splitOnChar sep cs with
    | [] => [[c]]
    | g :: gs => if c = sep then [] :: g :: gs else (c :: g) :: gs

/-- Python `s.split(chr(10))`, used on captured stdout. -/
def pySplitLines (s : String) : List String :=
  (splitOnChar '\n' s.data).map String.mk

/-- ASCII lower-casing of one character (Python `str.lower` restricted to
the ASCII identifiers the code compares against). -/
def asciiLowerChar (c : Char) : Char :=
  if 65 ≤ c.toNat ∧ c.toNat ≤ 90 then Char.ofNat (c.toNat + 32) else c

/-- Python `str.lower`. -/
def pyLower (s : String) : String := String.mk (s.data.map asciiLowerChar)

/-- ASCII upper-casing of one character. -/
def asciiUpperChar (c : Char) : Char :=
  if 97 ≤ c.toNat ∧ c.toNat ≤ 122 then Char.ofNat (c.toNat - 32) else c

/-- Python `str.upper`. -/
def pyUpper (s : String) : String := String.mk (s.data.map asciiUpperChar)

/-- `pathlib.Path.name`: the final path component. -/
def pathName (p : String) : String :=
  String.mk ((splitOnChar '/' p.data).getLastD [])

/-- Join character-list groups with a dot. -/
def joinWithDot : List (List Char) → List Char
  | [] => []
  | [g] => g
  | g :: gs => g ++ '.' :: joinWithDot gs

/-- `pathlib.Path.stem`: the file name without its final suffix (a name
whose only dot is a leading one has no suffix). -/
def pathStem (name : String) : String :=
  match splitOnChar '.' name.data with
  | [] => name
  | [_] => name
  | g :: gs =>
    if g = [] ∧ gs.length = 1 then name
    else String.mk (joinWithDot ((g :: gs).dropLast))

/-! ### Data model -/

/-- Modelled from the spec: §3 — the agent imports `TestStatus` from
`models.test_case`, which is absent from the sources; the spec fixes it as
the closed enumeration `Passed | Failed | Skipped | Error`. -/
inductive TestStatus where
  | passed
  | failed
  | skipped
  | error
deriving DecidableEq, Repr

/-- The lower-case string value of a status, as used by the serializer and
the report generators (`status.value`). -/
def statusValue : TestStatus → String
  | .passed => "passed"
  | .failed => "failed"
  | .skipped => "skipped"
  | .error => "error"

/-- Modelled from the spec: §3 — the agent imports `TestResult` from
`models.test_case`, which is absent from the sources; fields follow the
spec (durations in seconds, artifact paths optional, `retry_count`
defaulting to 0). -/
structure TestResult where
  test_id : String
  test_name : String
  status : TestStatus
  duration : ℚ
  error_message : Option String := none
  screenshot_path : Option String := none
  video_path : Option String := none
  retry_count : Int := 0
deriving DecidableEq, Repr

/-- Modelled from the spec: §3 — the agent imports `TestSuiteResult` from
`models.test_case`, which is absent from the sources; fields follow the
spec. -/
structure TestSuiteResult where
  suite_id : String
  suite_name : String
  total_tests : Nat
  passed : Nat
  failed : Nat
  skipped : Nat
  errors : Nat
  total_duration : ℚ
  start_time : String
  end_time : String
  test_results : List TestResult
  artifacts_dir : String
  report_path : Option String := none
deriving DecidableEq, Repr

/-- The Python exceptions the agent raises, catches or re-raises. -/
inductive PyExn where
  | timeoutExpired (msg : String)
  | fileNotFoundError (msg : String)
  | attributeError (msg : String)
  | typeError (msg : String)
  | jsonDecodeError (msg : String)
  | valueError (msg : String)
  | zeroDivisionError (msg : String)
  | otherError (msg : String)
deriving DecidableEq, Repr

/-- Python `str(e)` for an exception. -/
def pyStr : PyExn → String
  | .timeoutExpired m => m
  | .fileNotFoundError m => m
  | .attributeError m => m
  | .typeError m => m
  | .jsonDecodeError m => m
  | .valueError m => m
  | .zeroDivisionError m => m
  | .otherError m => m

/-- Is the exception a `json.JSONDecodeError` (the only class the inner
`except` clause of `_parse_playwright_results` catches)? -/
def isJsonDecodeErr : PyExn → Bool
  | .jsonDecodeError _ => true
  | _ => false

/-! ### JSON values and Python dynamic operations on them -/

/-- A parsed JSON value, the output type of the `json.loads` oracle. -/
inductive JVal where
  | jnull
  | jbool (b : Bool)
  | jnum (q : ℚ)
  | jstr (s : String)
  | jarr (elems : List JVal)
  | jobj (fields : List (String × JVal))

/-- Python `v.get(key, dflt)`: dictionary lookup with default, raising
`AttributeError` when the receiver is not a dictionary. -/
def jget (v : JVal) (key : String) (dflt : JVal) : Except PyExn JVal :=
  match v with
  | .jobj fields =>
    match fields.lookup key with
    | some w => .ok w
    | none => .ok dflt
  | _ => .error (.attributeError "object has no attribute get")

/-- Python `for x in v`: arrays yield elements, strings yield one-character
strings, dictionaries yield their keys, everything else raises
`TypeError`. -/
def jiter : JVal → Except PyExn (List JVal)
  | .jarr xs => .ok xs
  | .jstr s => .ok (s.data.map (fun c => .jstr (String.mk [c])))
  | .jobj fields => .ok (fields.map (fun kv => .jstr kv.fst))
  | _ => .error (.typeError "object is not iterable")

/-- Python `v / 1000.0`: defined for numbers (and booleans, which are ints),
`TypeError` otherwise. -/
def jdivMs : JVal → Except PyExn ℚ
  | .jnum q => .ok (q / 1000)
  | .jbool b => .ok ((if b then (1 : ℚ) else 0) / 1000)
  | _ => .error (.typeError "unsupported operand type for division")

/-- Python `v == s` for a string literal `s`: true only for an equal
string. -/
def pyEqStr (v : JVal) (s : String) : Bool :=
  match v with
  | .jstr t => t = s
  | _ => false

/-- Render a JSON value into the string field that receives it (the Python
code stores the raw object; all inputs of interest carry strings here). -/
def jstrOf : JVal → String
  | .jstr s => s
  | .jnum q => toString q
  | .jbool b => if b then "True" else "False"
  | .jnull => "None"
  | .jarr _ => "list"
  | .jobj _ => "dict"

/-! ### Result Parser (`_parse_playwright_results` and helpers) -/

/-- An artifact kind looked up by `_find_test_artifacts`. -/
inductive ArtifactKind where
  | screenshot
  | video
deriving DecidableEq, Repr

/-- Oracle for `_find_test_artifacts`: a filesystem search by test id and
artifact kind; the Python function is total (its `except` returns `None`). -/
def Locator : Type := String → ArtifactKind → Option String

/-- Oracle for `json.loads` on one stdout line. -/
def JsonLoads : Type := String → Except PyExn JVal

/-- The mutable per-test state of the attempt loop in
`_parse_playwright_json_results` (status, error message, summed duration). -/
structure AttemptState where
  status : TestStatus
  error_message : Option String
  duration : ℚ
deriving DecidableEq, Repr

/-- Body of `for result in test.get(results, [])` in
`_parse_playwright_json_results` (source lines 488-495): add the attempt
duration (ms → s), then overwrite status/error by the attempt status. -/
def processAttempt (st : AttemptState) (result : JVal) : Except PyExn AttemptState := do
  let dv ← jget result "duration" (.jnum 0)
  let dq ← jdivMs dv
  let st1 : AttemptState := { st with duration := st.duration + dq }
  let sv ← jget result "status" .jnull
  if pyEqStr sv "failed" then
    let ev ← jget result "error" (.jobj [])
    let mv ← jget ev "message" (.jstr "Test failed")
    pure { st1 with status := .failed, error_message := some (jstrOf mv) }
  else if pyEqStr sv "skipped" then
    pure { st1 with status := .skipped }
  else
    pure st1

/-- Body of `for test in spec.get(tests, [])`: build one `TestResult` from
a leaf test node, or raise. -/
def processTest (locate : Locator) (test : JVal) : Except PyExn TestResult := do
  let idv ← jget test "id" (.jstr "unknown")
  let test_id := jstrOf idv
  let titlev ← jget test "title" (.jstr "Unknown Test")
  let test_name := jstrOf titlev
  let rv ← jget test "results" (.jarr [])
  let attempts ← jiter rv
  let st ← attempts.foldlM processAttempt ⟨.passed, none, 0⟩
  pure { test_id := test_id, test_name := test_name, status := st.status,
         duration := st.duration, error_message := st.error_message,
         screenshot_path := locate test_id .screenshot,
         video_path := locate test_id .video, retry_count := 0 }

/-- Run the test loop of one spec, accumulating into the shared
`test_results` list; an exception stops the walk, keeping what was
appended so far. -/
def runTests (locate : Locator) (acc : List TestResult) :
    List JVal → List TestResult × Option PyExn
  | [] => (acc, none)
  | t :: ts =>
    match processTest locate t with
    | .ok r => runTests locate (acc ++ [r]) ts
    | .error e => (acc, some e)

/-- `spec.get(tests, [])` followed by iteration. -/
def specTests (spec : JVal) : Except PyExn (List JVal) := do
  let tv ← jget spec "tests" (.jarr [])
  jiter tv

/-- Run the spec loop of one suite. -/
def runSpecs (locate : Locator) (acc : List TestResult) :
    List JVal → List TestResult × Option PyExn
  | [] => (acc, none)
  | s :: ss =>
    match specTests s with
    | .error e => (acc, some e)
    | .ok ts =>
      match runTests locate acc ts with
      | (acc2, none) => runSpecs locate acc2 ss
      | (acc2, some e) => (acc2, some e)

/-- `suite.get(specs, [])` followed by iteration. -/
def suiteSpecs (suite : JVal) : Except PyExn (List JVal) := do
  let sv ← jget suite "specs" (.jarr [])
  jiter sv

/-- Run the suite loop of the report. -/
def runSuites (locate : Locator) (acc : List TestResult) :
    List JVal → List TestResult × Option PyExn
  | [] => (acc, none)
  | s :: ss =>
    match suiteSpecs s with
    | .error e => (acc, some e)
    | .ok sps =>
      match runSpecs locate acc sps with
      | (acc2, none) => runSuites locate acc2 ss
      | (acc2, some e) => (acc2, some e)

/-- `json_data.get(suites, [])` followed by iteration. -/
def topSuites (json_data : JVal) : Except PyExn (List JVal) := do
  let sv ← jget json_data "suites" (.jarr [])
  jiter sv

/-- `_parse_playwright_json_results` (source lines 471-514): walk
suites → specs → tests → attempts; its own `except Exception` makes it
total, returning whatever was accumulated when an exception is raised. -/
def parsePlaywrightJsonResults (locate : Locator) (json_data : JVal) : List TestResult :=
  match topSuites json_data with
  | .error _ => []
  | .ok suites => (runSuites locate [] suites).fst

/-- The captured output of `subprocess.run` (stdout, stderr, exit code). -/
structure CompletedProcess where
  stdout : String
  stderr : String
  returncode : Int
deriving DecidableEq, Repr

/-- Does a stdout line look like the structured JSON report
(`line.strip().startswith(chr(123)) and ... in line`)? -/
def isJsonCandidate (line : String) : Bool :=
  listStartsWith (stripChars line.data) ['\x7b'] && containsSub "suites".data line.data

/-- The first candidate JSON line of stdout (the loop in
`_parse_playwright_results` returns on the first match; an empty stdout is
falsy and skips the loop). -/
def firstCandidate (stdout : String) : Option String :=
  if stdout = "" then none
  else (pySplitLines stdout).find? isJsonCandidate

/-- The lower-cased combined output the authentication sentinel scans. -/
def authOutput (cp : CompletedProcess) : String := pyLower (cp.stdout ++ cp.stderr)

/-- The authentication-failure sentinel of `_parse_playwright_results`. -/
def authSentinel (cp : CompletedProcess) : Bool :=
  pyContains (authOutput cp) "login" && pyContains (authOutput cp) "failed"

/-- `_parse_playwright_text_results` (source lines 516-541): exit-code-only
classification; nothing in its body can raise, so it is total. -/
def parsePlaywrightTextResults (cp : CompletedProcess) (fileName fileStem : String) :
    List TestResult :=
  if cp.returncode = 0 then
    [{ test_id := "text_" ++ fileStem, test_name := fileName, status := .passed,
       duration := 0, error_message := none }]
  else
    [{ test_id := "text_" ++ fileStem, test_name := fileName, status := .failed,
       duration := 0,
       error_message := some (if cp.stderr = "" then "Test failed" else cp.stderr) }]

/-- The body of the outer `try` of `_parse_playwright_results` (source lines
433-459): structured parse of the first candidate line, else the
authentication sentinel, else text fallback; a `JSONDecodeError` from
`json.loads` is caught and falls through to the text fallback, any other
exception propagates to the outer handler. -/
def parsePlaywrightResultsBody (jsonLoads : JsonLoads) (locate : Locator)
    (cp : CompletedProcess) (fileName fileStem : String) :
    Except PyExn (List TestResult) :=
  match firstCandidate cp.stdout with
  | some line =>
    match jsonLoads line with
    | .ok j => .ok (parsePlaywrightJsonResults locate j)
    | .error e =>
      if isJsonDecodeErr e then .ok (parsePlaywrightTextResults cp fileName fileStem)
      else .error e
  | none =>
    if authSentinel cp then
      .ok [{ test_id := "auth_failed_" ++ fileName, test_name := fileName,
             status := .error, duration := 0,
             error_message := some "Authentication failed - check credentials" }]
    else .ok (parsePlaywrightTextResults cp fileName fileStem)

/-- `_parse_playwright_results` (source lines 430-469): the outer
`except Exception` converts a propagating exception into one `Error`
result naming the parse failure. -/
def parsePlaywrightResults (jsonLoads : JsonLoads) (locate : Locator)
    (cp : CompletedProcess) (fileName fileStem : String) : List TestResult :=
  match parsePlaywrightResultsBody jsonLoads locate cp fileName fileStem with
  | .ok rs => rs
  | .error e =>
    [{ test_id := "parse_error_" ++ fileName, test_name := fileName, status := .error,
       duration := 0, error_message := some ("Failed to parse results: " ++ pyStr e) }]

/-! ### Process Runner (`_execute_single_test_file`) -/

/-- The outcome of one `subprocess.run` invocation for one test file:
completion with captured output, the 300 s wall-clock timeout, a missing
binary/file, or any other exception raised inside the `try` block. -/
inductive RunOutcome where
  | completed (cp : CompletedProcess)
  | timeoutExpired
  | fileNotFound (msg : String)
  | raised (e : PyExn)

/-- `_execute_single_test_file` (source lines 314-398): run the external
process and parse its output; the three `except` clauses make the function
total, converting timeout, missing file and any other exception into a
single `Error` result (timeout with duration exactly 300.0 s). -/
def executeSingleTestFile (jsonLoads : JsonLoads) (locate : Locator)
    (fileName fileStem : String) : RunOutcome → List TestResult
  | .completed cp => parsePlaywrightResults jsonLoads locate cp fileName fileStem
  | .timeoutExpired =>
    [{ test_id := "timeout_" ++ fileName, test_name := fileName, status := .error,
       duration := 300, error_message := some "Test execution timed out" }]
  | .fileNotFound m =>
    [{ test_id := "file_not_found_" ++ fileName, test_name := fileName, status := .error,
       duration := 0, error_message := some ("File not found: " ++ m) }]
  | .raised e =>
    [{ test_id := "error_" ++ fileName, test_name := fileName, status := .error,
       duration := 0, error_message := some (pyStr e) }]

/-! ### Retry Coordinator (`_execute_single_test_file_with_retry`) -/

/-- The synthesized retry-exhaustion result (source lines 421-428):
`str(None)` renders as "None" when no attempt ever ran. -/
def retryFailedResult (fileName : String) (maxRetries : Int) (lastExn : Option PyExn) :
    TestResult :=
  { test_id := "retry_failed_" ++ fileName, test_name := fileName, status := .error,
    duration := 0,
    error_message := some ("All " ++ toString (maxRetries + 1) ++
      " attempts failed. Last error: " ++
      (match lastExn with
       | none => "None"
       | some e => pyStr e)),
    retry_count := maxRetries }

/-- An instrumented run of the retry loop: the returned results, the number
of attempts performed, and the seconds slept between consecutive attempts
(`time.sleep(2 ** attempt)`). -/
structure RetryRun where
  results : List TestResult
  attemptsMade : Nat
  sleeps : List Nat
deriving Repr

/-- The loop `for attempt in range(max_retries + 1)` of
`_execute_single_test_file_with_retry` (source lines 400-428), over an
abstract per-attempt execution `inner` that either returns results or
raises. -/
def retryLoop (inner : Nat → Except PyExn (List TestResult)) (fileName : String)
    (maxRetries : Int) :
    Nat → Nat → Option PyExn → List Nat → Nat → RetryRun
  | 0, _attempt, lastExn, sleeps, made =>
    ⟨[retryFailedResult fileName maxRetries lastExn], made, sleeps⟩
  | remaining + 1, attempt, _lastExn, sleeps, made =>
    match inner attempt with
    | .ok rs => ⟨rs, made + 1, sleeps⟩
    | .error e =>
      if (attempt : Int) < maxRetries then
        retryLoop inner fileName maxRetries remaining (attempt + 1) (some e)
          (sleeps ++ [2 ^ attempt]) (made + 1)
      else
        retryLoop inner fileName maxRetries remaining (attempt + 1) (some e)
          sleeps (made + 1)

/-- `_execute_single_test_file_with_retry` over an abstract per-attempt
execution: `range(max_retries + 1)` performs `(max_retries + 1).toNat`
iterations. -/
def runWithRetry (inner : Nat → Except PyExn (List TestResult)) (fileName : String)
    (maxRetries : Int) : RetryRun :=
  retryLoop inner fileName maxRetries (maxRetries + 1).toNat 0 none [] 0

/-- `_execute_single_test_file_with_retry` as written: the inner execution
is `_execute_single_test_file`, which is total and therefore never raises. -/
def executeSingleTestFileWithRetry (jsonLoads : JsonLoads) (locate : Locator)
    (fileName fileStem : String) (outcome : RunOutcome) (maxRetries : Int) : RetryRun :=
  runWithRetry
    (fun _ => .ok (executeSingleTestFile jsonLoads locate fileName fileStem outcome))
    fileName maxRetries

/-! ### Test Discovery (`_find_test_files`) -/

/-- The filesystem view `_find_test_files` consults: whether the root is a
recognized file or a directory, the glob results per known category
subdirectory, and the recursive glob results per fallback pattern. -/
structure FSView where
  rootIsFile : Bool
  rootSuffix : String
  rootIsDir : Bool
  categoryFiles : String → List String
  rglobFiles : String → List String

/-- The known category subdirectories (source line 288). -/
def testDirs : List String :=
  ["performance", "edge_cases", "accessibility", "functionality", "cross_browser"]

/-- The fallback file-name patterns (source line 301). -/
def testPatterns : List String := ["*.test.ts", "*.spec.ts", "*-test.ts", "*-spec.ts"]

/-- The raw `test_paths` list gathered by `_find_test_files` before
deduplication and sorting. -/
def rawTestFiles (fs : FSView) (root : String) : List String :=
  if fs.rootIsFile && (fs.rootSuffix = ".js" || fs.rootSuffix = ".ts") then [root]
  else if fs.rootIsDir then
    let fromCats := testDirs.foldl (fun acc d => acc ++ fs.categoryFiles d) []
    if fromCats.isEmpty then testPatterns.foldl (fun acc p => acc ++ fs.rglobFiles p) []
    else fromCats
  else []

/-- Insert a path into a lexicographically sorted list. -/
def insertStr (x : String) : List String → List String
  | [] => [x]
  | y :: ys => if pyStrLe x y then x :: y :: ys else y :: insertStr x ys

/-- Sort paths lexicographically (Python `sorted`; the input is already
deduplicated, so any correct sort yields the same canonical list). -/
def sortStrs : List String → List String
  | [] => []
  | x :: xs => insertStr x (sortStrs xs)

/-- `sorted(list(set(test_paths)))` of `_find_test_files` (source line 306). -/
def findTestFiles (fs : FSView) (root : String) : List String :=
  sortStrs (rawTestFiles fs root).dedup

/-! ### Suite execution (`execute_test_suite`) -/

/-- The per-run metadata `execute_test_suite` derives from the clock and its
configuration. -/
structure SuiteMeta where
  testType : String
  timestamp : String
  startTime : String
  endTime : String
  totalDuration : ℚ
  artifactsDir : String

/-- The per-file loop of `execute_test_suite` (source lines 152-160): each
discovered file is executed by `_execute_single_test_file` and the result
lists are concatenated in discovery order. -/
def suiteFileResults (jsonLoads : JsonLoads) (locate : Locator)
    (run : String → RunOutcome) (files : List String) : List TestResult :=
  files.foldl
    (fun acc p =>
      acc ++ executeSingleTestFile jsonLoads locate (pathName p) (pathStem (pathName p)) (run p))
    []

/-- `sum(1 for r in test_results if r.status == st)`. -/
def countStatus (st : TestStatus) (rs : List TestResult) : Nat :=
  rs.countP (fun r => r.status = st)

/-- `execute_test_suite` (source lines 132-193): discovery, the `ValueError`
on an empty discovery result, the per-file loop, and the summary counts. -/
def executeTestSuite (jsonLoads : JsonLoads) (locate : Locator) (fs : FSView)
    (run : String → RunOutcome) (meta : SuiteMeta) (root : String) :
    Except PyExn TestSuiteResult :=
  let test_files := findTestFiles fs root
  if test_files.isEmpty then .error (.valueError ("No test files found in " ++ root))
  else
    let execution_id := "exec_" ++ meta.testType ++ "_" ++ meta.timestamp
    let test_results := suiteFileResults jsonLoads locate run test_files
    .ok { suite_id := execution_id,
          suite_name := "Test Suite - " ++ meta.testType,
          total_tests := test_results.length,
          passed := countStatus .passed test_results,
          failed := countStatus .failed test_results,
          skipped := countStatus .skipped test_results,
          errors := countStatus .error test_results,
          total_duration := meta.totalDuration,
          start_time := meta.startTime,
          end_time := meta.endTime,
          test_results := test_results,
          artifacts_dir := meta.artifactsDir,
          report_path := none }

/-! ### Statistics Tracker (`update_stats`) -/

/-- One trimmed entry of the execution history (source lines 784-791). -/
structure ExecSummary where
  suite_id : String
  timestamp : String
  total_tests : Nat
  passed : Nat
  failed : Nat
  duration : ℚ
deriving DecidableEq, Repr

/-- The trimmed summary appended to the history. -/
def runSummary (r : TestSuiteResult) : ExecSummary :=
  ⟨r.suite_id, r.end_time, r.total_tests, r.passed, r.failed, r.total_duration⟩

/-- The agent statistics dictionary (source lines 53-61). -/
structure Stats where
  total_executions : Nat
  total_tests_run : Nat
  total_passed : Nat
  total_failed : Nat
  total_errors : Nat
  last_execution : Option String
  execution_history : List ExecSummary
deriving DecidableEq, Repr

/-- The statistics at agent construction. -/
def initialStats : Stats := ⟨0, 0, 0, 0, 0, none, []⟩

/-- `update_stats` (source lines 774-795): increment the counters, record
the end time, append the summary and keep only the last 10 history entries
(`history[-10:]`). -/
def updateStats (s : Stats) (r : TestSuiteResult) : Stats :=
  let hist := s.execution_history ++ [runSummary r]
  let hist2 := if hist.length > 10 then hist.drop (hist.length - 10) else hist
  { total_executions := s.total_executions + 1,
    total_tests_run := s.total_tests_run + r.total_tests,
    total_passed := s.total_passed + r.passed,
    total_failed := s.total_failed + r.failed,
    total_errors := s.total_errors + r.errors,
    last_execution := some r.end_time,
    execution_history := hist2 }

/-! ### Report Generator (`generate_execution_report` and helpers) -/

/-- One serialized test result (`_serialize_execution_result`, source lines
759-771). -/
structure SerializedResult where
  test_id : String
  test_name : String
  status : String
  duration : ℚ
  error_message : Option String
  screenshot_path : Option String
  video_path : Option String
  retry_count : Int
deriving DecidableEq, Repr

/-- Serialize one test result; the status becomes its string value. -/
def serializeTestResult (tr : TestResult) : SerializedResult :=
  ⟨tr.test_id, tr.test_name, statusValue tr.status, tr.duration, tr.error_message,
   tr.screenshot_path, tr.video_path, tr.retry_count⟩

/-- The canonical JSON serialization (`_serialize_execution_result`, source
lines 744-772). -/
structure SerializedSuite where
  suite_id : String
  suite_name : String
  total_tests : Nat
  passed : Nat
  failed : Nat
  skipped : Nat
  errors : Nat
  total_duration : ℚ
  start_time : String
  end_time : String
  artifacts_dir : String
  report_path : Option String
  test_results : List SerializedResult
deriving DecidableEq, Repr

/-- `_serialize_execution_result`. -/
def serializeExecutionResult (r : TestSuiteResult) : SerializedSuite :=
  ⟨r.suite_id, r.suite_name, r.total_tests, r.passed, r.failed, r.skipped, r.errors,
   r.total_duration, r.start_time, r.end_time, r.artifacts_dir, r.report_path,
   r.test_results.map serializeTestResult⟩

/-- One per-test block of the HTML report (`_generate_html_report`, source
lines 652-677); the text templating is abstracted to the values it
interpolates. -/
structure HtmlTestBlock where
  test_name : String
  statusClass : String
  duration : ℚ
  test_id : String
  error_message : Option String
  screenshot_link : Option String
  video_link : Option String
deriving DecidableEq, Repr

/-- The HTML report content (`_generate_html_report`, source lines 596-689):
header metadata, the four summary metrics, and one block per test; no
arithmetic beyond field access, so it is total. -/
structure HtmlReport where
  suite_name : String
  suite_id : String
  start_time : String
  end_time : String
  total_duration : ℚ
  total_tests : Nat
  passed : Nat
  failed : Nat
  errors : Nat
  blocks : List HtmlTestBlock
deriving DecidableEq, Repr

/-- `_generate_html_report` as the structured content it writes. -/
def generateHtmlReport (r : TestSuiteResult) : HtmlReport :=
  { suite_name := r.suite_name, suite_id := r.suite_id, start_time := r.start_time,
    end_time := r.end_time, total_duration := r.total_duration,
    total_tests := r.total_tests, passed := r.passed, failed := r.failed,
    errors := r.errors,
    blocks := r.test_results.map (fun tr =>
      ⟨tr.test_name, statusValue tr.status, tr.duration, tr.test_id, tr.error_message,
       tr.screenshot_path, tr.video_path⟩) }

/-- The status glyph of the Markdown report, keyed by the lower-cased status
string with a fallback glyph (`_generate_markdown_report`, source lines
714-719); the concrete emoji characters are abstracted. -/
inductive MdGlyph where
  | passedGlyph
  | failedGlyph
  | errorGlyph
  | skippedGlyph
  | unknownGlyph
deriving DecidableEq, Repr

/-- Glyph selection by lower-cased status string. -/
def statusGlyph (statusStr : String) : MdGlyph :=
  let l := pyLower statusStr
  if l = "passed" then .passedGlyph
  else if l = "failed" then .failedGlyph
  else if l = "error" then .errorGlyph
  else if l = "skipped" then .skippedGlyph
  else .unknownGlyph

/-- One per-test entry of the Markdown report. -/
structure MdEntry where
  glyph : MdGlyph
  test_name : String
  statusUpper : String
  duration : ℚ
  test_id : String
  error_message : Option String
  screenshot_path : Option String
  video_path : Option String
deriving DecidableEq, Repr

/-- The Markdown report content, including the computed success rate. -/
structure MarkdownReport where
  suite_name : String
  suite_id : String
  start_time : String
  end_time : String
  total_duration : ℚ
  total_tests : Nat
  passed : Nat
  failed : Nat
  errors : Nat
  successRate : ℚ
  entries : List MdEntry
deriving DecidableEq, Repr

/-- Python true division, raising `ZeroDivisionError` on a zero divisor. -/
def pydiv (a b : ℚ) : Except PyExn ℚ :=
  if b = 0 then .error (.zeroDivisionError "division by zero") else .ok (a / b)

/-- `_generate_markdown_report` (source lines 691-742): the success rate is
`passed / total_tests * 100`, computed with true division. -/
def generateMarkdownReport (r : TestSuiteResult) : Except PyExn MarkdownReport := do
  let rate ← pydiv (r.passed : ℚ) (r.total_tests : ℚ)
  pure { suite_name := r.suite_name, suite_id := r.suite_id,
         start_time := r.start_time, end_time := r.end_time,
         total_duration := r.total_duration, total_tests := r.total_tests,
         passed := r.passed, failed := r.failed, errors := r.errors,
         successRate := rate * 100,
         entries := r.test_results.map (fun tr =>
           ⟨statusGlyph (statusValue tr.status), tr.test_name,
            pyUpper (statusValue tr.status), tr.duration, tr.test_id,
            tr.error_message, tr.screenshot_path, tr.video_path⟩) }

/-- The three report files `generate_execution_report` writes, plus the
returned HTML report path. -/
structure GeneratedReports where
  jsonReport : SerializedSuite
  htmlReport : HtmlReport
  mdReport : MarkdownReport
  report_path : String

/-- `generate_execution_report` (source lines 571-594): JSON, HTML, then
Markdown; its `except` clause logs and re-raises, so an exception from the
Markdown generator propagates. -/
def generateExecutionReport (r : TestSuiteResult) : Except PyExn GeneratedReports := do
  let j := serializeExecutionResult r
  let h := generateHtmlReport r
  let m ← generateMarkdownReport r
  pure ⟨j, h, m, r.artifacts_dir ++ "/execution_report.html"⟩

/-! ### General lemmas -/

/-- The four status counts partition any result list. -/
theorem countStatus_partition (rs : List TestResult) :
    countStatus .passed rs + countStatus .failed rs + countStatus .skipped rs +
      countStatus .error rs = rs.length := by
  induction rs with
  | nil => rfl
  | cons r t ih =>
    cases h : r.status <;>
      simp [countStatus, List.countP_cons, h] at ih ⊢ <;> omega

/-- Folding list-append over a list is concatenation of the images. -/
theorem foldl_append_eq {α β : Type} (g : α → List β) (l : List α) (a : List β) :
    l.foldl (fun acc p => acc ++ g p) a = a ++ (l.map g).flatten := by
  induction l generalizing a with
  | nil => simp
  | cons x xs ih => simp [List.foldl_cons, ih, List.append_assoc]

/-- The suite loop concatenates the per-file results of
`_execute_single_test_file` in discovery order. -/
theorem suiteFileResults_eq_join (jsonLoads : JsonLoads) (locate : Locator)
    (run : String → RunOutcome) (files : List String) :
    suiteFileResults jsonLoads locate run files =
      (files.map (fun p =>
        executeSingleTestFile jsonLoads locate (pathName p) (pathStem (pathName p)) (run p))).flatten := by
  unfold suiteFileResults
  rw [foldl_append_eq]
  rfl

/-! ### C1 -/

/-- C1: for every suite result produced by `execute_test_suite`,
`total_tests` equals the length of `test_results`, each of the four
counters counts exactly the results with that status, and their sum is
`total_tests`. -/
theorem execute_test_suite_count_invariant (jsonLoads : JsonLoads) (locate : Locator)
    (fs : FSView) (run : String → RunOutcome) (meta : SuiteMeta) (root : String)
    (suite : TestSuiteResult)
    (h : executeTestSuite jsonLoads locate fs run meta root = .ok suite) :
    suite.total_tests = suite.test_results.length ∧
    suite.passed = countStatus .passed suite.test_results ∧
    suite.failed = countStatus .failed suite.test_results ∧
    suite.skipped = countStatus .skipped suite.test_results ∧
    suite.errors = countStatus .error suite.test_results ∧
    suite.passed + suite.failed + suite.skipped + suite.errors = suite.total_tests := by
  unfold executeTestSuite at h
  by_cases hemp : (findTestFiles fs root).isEmpty
  · simp [hemp] at h
  · simp only [hemp, if_neg, Bool.false_eq_true, if_false, Except.ok.injEq] at h
    subst h
    refine ⟨rfl, rfl, rfl, rfl, rfl, countStatus_partition _⟩

/-- Discovery view for the C1 witness: one category directory with one file. -/
def c1Fs : FSView :=
  { rootIsFile := false, rootSuffix := "", rootIsDir := true,
    categoryFiles := fun d => if d = "functionality" then ["a.spec.ts"] else [],
    rglobFiles := fun _ => [] }

/-- A `json.loads` oracle that always fails to decode. -/
def cNoJson : JsonLoads := fun _ => .error (.jsonDecodeError "Expecting value")

/-- An artifact locator that finds nothing. -/
def noLoc : Locator := fun _ _ => none

/-- Fixed metadata for concrete suite runs. -/
def cMeta : SuiteMeta := ⟨"recruter_ai", "20250101_000000", "s", "e", 0, "art"⟩

/-- The suite result of the C1 witness run (one file, timing out). -/
def c1Suite : TestSuiteResult :=
  { suite_id := "exec_recruter_ai_20250101_000000",
    suite_name := "Test Suite - recruter_ai", total_tests := 1, passed := 0,
    failed := 0, skipped := 0, errors := 1, total_duration := 0, start_time := "s",
    end_time := "e",
    test_results := [{ test_id := "timeout_a.spec.ts", test_name := "a.spec.ts",
                       status := .error, duration := 300,
                       error_message := some "Test execution timed out" }],
    artifacts_dir := "art", report_path := none }

/-- Witness for C1: the invariant evaluated on a concrete one-file run. -/
theorem execute_test_suite_count_invariant_witness :
    c1Suite.total_tests = c1Suite.test_results.length ∧
    c1Suite.passed = countStatus .passed c1Suite.test_results ∧
    c1Suite.failed = countStatus .failed c1Suite.test_results ∧
    c1Suite.skipped = countStatus .skipped c1Suite.test_results ∧
    c1Suite.errors = countStatus .error c1Suite.test_results ∧
    c1Suite.passed + c1Suite.failed + c1Suite.skipped + c1Suite.errors = c1Suite.total_tests :=
  execute_test_suite_count_invariant cNoJson noLoc c1Fs (fun _ => .timeoutExpired)
    cMeta "r" c1Suite rfl

/-! ### C4 -/

/-- C4: with `retries = 2` and an inner execution raising on every call,
the retry loop performs exactly 3 attempts, sleeps `2 ^ 0` then `2 ^ 1`
seconds between consecutive attempts, and returns exactly one `Error`
result with `retry_count = 2` whose message names the last exception. -/
theorem retry_exhaustion_three_attempts (fileName : String) (e : PyExn) :
    runWithRetry (fun _ => .error e) fileName 2 =
      ⟨[{ test_id := "retry_failed_" ++ fileName, test_name := fileName,
          status := .error, duration := 0,
          error_message := some ("All 3 attempts failed. Last error: " ++ pyStr e),
          retry_count := 2 }], 3, [2 ^ 0, 2 ^ 1]⟩ := by
  show retryLoop _ _ _ 3 0 none [] 0 = _
  have hmsg : ("All " ++ toString ((2:Int) + 1) ++ " attempts failed. Last error: ") =
      "All 3 attempts failed. Last error: " := by decide
  simp only [retryLoop, retryFailedResult, hmsg]
  norm_num

/-! ### C5 -/

/-- C5: a per-file execution hitting the 300 s wall-clock ceiling yields
exactly one `Error` result for that file with duration exactly 300.0 and
the timeout message, and the suite loop still collects the results of all
remaining files in order. -/
theorem timeout_single_error_result (jsonLoads : JsonLoads) (locate : Locator)
    (fs : FSView) (run : String → RunOutcome) (meta : SuiteMeta) (root : String)
    (p : String) (xs ys : List String) (suite : TestSuiteResult)
    (hfiles : findTestFiles fs root = xs ++ p :: ys)
    (hrun : run p = .timeoutExpired)
    (hok : executeTestSuite jsonLoads locate fs run meta root = .ok suite) :
    suite.test_results =
      suiteFileResults jsonLoads locate run xs ++
      [{ test_id := "timeout_" ++ pathName p, test_name := pathName p, status := .error,
         duration := 300, error_message := some "Test execution timed out" }] ++
      suiteFileResults jsonLoads locate run ys := by
  have hne : (findTestFiles fs root).isEmpty = false := by
    rw [hfiles]; cases xs <;> rfl
  unfold executeTestSuite at hok
  simp only [hne, Bool.false_eq_true, if_false, Except.ok.injEq] at hok
  subst hok
  show suiteFileResults jsonLoads locate run (findTestFiles fs root) = _
  rw [hfiles, suiteFileResults_eq_join, suiteFileResults_eq_join, suiteFileResults_eq_join,
    List.map_append, List.map_cons, List.flatten_append, List.flatten_cons]
  rw [hrun]
  simp [executeSingleTestFile, List.append_assoc]

/-- Discovery view for the C5 witness: two files in one category directory. -/
def c5Fs : FSView :=
  { rootIsFile := false, rootSuffix := "", rootIsDir := true,
    categoryFiles := fun d => if d = "functionality" then ["a.spec.ts", "b.spec.ts"] else [],
    rglobFiles := fun _ => [] }

/-- Per-file outcomes of the C5 witness run: the first file times out, the
second completes with unparseable output and exit code 0. -/
def c5Run : String → RunOutcome := fun p =>
  if p = "a.spec.ts" then .timeoutExpired else .completed ⟨"ok", "", 0⟩

/-- The suite result of the C5 witness run. -/
def c5Suite : TestSuiteResult :=
  { suite_id := "exec_recruter_ai_20250101_000000",
    suite_name := "Test Suite - recruter_ai", total_tests := 2, passed := 1,
    failed := 0, skipped := 0, errors := 1, total_duration := 0, start_time := "s",
    end_time := "e",
    test_results := [{ test_id := "timeout_a.spec.ts", test_name := "a.spec.ts",
                       status := .error, duration := 300,
                       error_message := some "Test execution timed out" },
                     { test_id := "text_b.spec", test_name := "b.spec.ts",
                       status := .passed, duration := 0, error_message := none }],
    artifacts_dir := "art", report_path := none }

/-- Witness for C5: the first file of a two-file suite times out and the
the second file still has its result collected. -/
theorem timeout_single_error_result_witness :
    c5Suite.test_results =
      suiteFileResults cNoJson noLoc c5Run [] ++
      [{ test_id := "timeout_a.spec.ts", test_name := "a.spec.ts", status := .error,
         duration := 300, error_message := some "Test execution timed out" }] ++
      suiteFileResults cNoJson noLoc c5Run ["b.spec.ts"] :=
  timeout_single_error_result cNoJson noLoc c5Fs c5Run cMeta "r" "a.spec.ts" []
    ["b.spec.ts"] c5Suite (by decide) rfl rfl

/-! ### C6 -/

/-- C6: with no structured JSON candidate line in stdout and the
authentication sentinel not matching, the parser classifies by exit code
alone: exit code 0 yields one `Passed` result without error message, a
non-zero exit code one `Failed` result carrying stderr (or a generic
message when stderr is empty). -/
theorem fallback_exit_code_classification (jsonLoads : JsonLoads) (locate : Locator)
    (cp : CompletedProcess) (fileName fileStem : String)
    (hjson : firstCandidate cp.stdout = none)
    (hauth : authSentinel cp = false) :
    parsePlaywrightResults jsonLoads locate cp fileName fileStem =
      if cp.returncode = 0 then
        [{ test_id := "text_" ++ fileStem, test_name := fileName, status := .passed,
           duration := 0, error_message := none }]
      else
        [{ test_id := "text_" ++ fileStem, test_name := fileName, status := .failed,
           duration := 0,
           error_message := some (if cp.stderr = "" then "Test failed" else cp.stderr) }] := by
  unfold parsePlaywrightResults parsePlaywrightResultsBody
  rw [hjson]
  simp only [hauth, Bool.false_eq_true, if_false]
  unfold parsePlaywrightTextResults
  split <;> rfl

/-- Output of a run with unparseable stdout and exit code 0. -/
def c6Proc : CompletedProcess := ⟨"Running 3 tests using 1 worker", "", 0⟩

/-- Witness for C6: the fallback classification on a concrete captured
output with exit code 0. -/
theorem fallback_exit_code_classification_witness :
    parsePlaywrightResults cNoJson noLoc c6Proc "a.spec.ts" "a.spec" =
      if c6Proc.returncode = 0 then
        [{ test_id := "text_a.spec", test_name := "a.spec.ts", status := .passed,
           duration := 0, error_message := none }]
      else
        [{ test_id := "text_a.spec", test_name := "a.spec.ts", status := .failed,
           duration := 0,
           error_message := some (if c6Proc.stderr = "" then "Test failed" else c6Proc.stderr) }] :=
  fallback_exit_code_classification cNoJson noLoc c6Proc "a.spec.ts" "a.spec"
    (by decide) (by decide)

/-! ### C9 -/

/-- The last `n` elements of a list (the Python slice `l[-n:]`). -/
def lastN {α : Type} (n : Nat) (l : List α) : List α := l.drop (l.length - n)

/-- `update_stats` keeps exactly the last ten history entries. -/
theorem updateStats_history (s : Stats) (r : TestSuiteResult) :
    (updateStats s r).execution_history =
      lastN 10 (s.execution_history ++ [runSummary r]) := by
  unfold updateStats lastN
  by_cases h : (s.execution_history ++ [runSummary r]).length > 10
  · simp only [h, if_true]
  · simp only [h, if_false]
    have h0 : (s.execution_history ++ [runSummary r]).length - 10 = 0 := by omega
    rw [h0, List.drop_zero]

/-- The history never exceeds ten entries after an update. -/
theorem updateStats_history_length (s : Stats) (r : TestSuiteResult) :
    (updateStats s r).execution_history.length ≤ 10 := by
  rw [updateStats_history]
  unfold lastN
  rw [List.length_drop]
  omega

/-- Trimming to the last `n` before appending does not change the last `n`
of the concatenation. -/
theorem lastN_append_absorb {α : Type} (n : Nat) (l m : List α) :
    lastN n (lastN n l ++ m) = lastN n (l ++ m) := by
  unfold lastN
  by_cases hL : l.length ≤ n
  · have h0 : l.length - n = 0 := by omega
    rw [h0, List.drop_zero]
  · push_neg at hL
    have hlen : (l.drop (l.length - n)).length = n := by
      rw [List.length_drop]; omega
    rw [List.drop_append_eq_append_drop, List.drop_append_eq_append_drop, hlen,
      List.length_append, hlen, List.drop_drop, List.length_append]
    congr 1
    · congr 1
      omega
    · congr 1
      omega

/-- The history after a fold of updates, starting from a short history. -/
theorem foldl_updateStats_history (runs : List TestSuiteResult) :
    ∀ s : Stats, s.execution_history.length ≤ 10 →
      (runs.foldl updateStats s).execution_history =
        lastN 10 (s.execution_history ++ runs.map runSummary) := by
  induction runs with
  | nil =>
    intro s hs
    have h0 : s.execution_history.length - 10 = 0 := by omega
    simp only [List.foldl_nil, List.map_nil, List.append_nil, lastN, h0, List.drop_zero]
  | cons r rest ih =>
    intro s hs
    have := ih (updateStats s r) (updateStats_history_length s r)
    rw [List.foldl_cons, this, updateStats_history, lastN_append_absorb,
      List.append_assoc, List.map_cons]
    rfl

/-- Projection lemmas for `updateStats`. -/
theorem updateStats_total_executions (s : Stats) (r : TestSuiteResult) :
    (updateStats s r).total_executions = s.total_executions + 1 := rfl

/-- Tests-run counter of one update. -/
theorem updateStats_total_tests_run (s : Stats) (r : TestSuiteResult) :
    (updateStats s r).total_tests_run = s.total_tests_run + r.total_tests := rfl

/-- Passed counter of one update. -/
theorem updateStats_total_passed (s : Stats) (r : TestSuiteResult) :
    (updateStats s r).total_passed = s.total_passed + r.passed := rfl

/-- Failed counter of one update. -/
theorem updateStats_total_failed (s : Stats) (r : TestSuiteResult) :
    (updateStats s r).total_failed = s.total_failed + r.failed := rfl

/-- Errors counter of one update. -/
theorem updateStats_total_errors (s : Stats) (r : TestSuiteResult) :
    (updateStats s r).total_errors = s.total_errors + r.errors := rfl

/-- The counters after a fold of updates. -/
theorem foldl_updateStats_counters (runs : List TestSuiteResult) :
    ∀ s : Stats,
      (runs.foldl updateStats s).total_executions = s.total_executions + runs.length ∧
      (runs.foldl updateStats s).total_tests_run =
        s.total_tests_run + (runs.map (fun x => x.total_tests)).sum ∧
      (runs.foldl updateStats s).total_passed =
        s.total_passed + (runs.map (fun x => x.passed)).sum ∧
      (runs.foldl updateStats s).total_failed =
        s.total_failed + (runs.map (fun x => x.failed)).sum ∧
      (runs.foldl updateStats s).total_errors =
        s.total_errors + (runs.map (fun x => x.errors)).sum := by
  induction runs with
  | nil => intro s; simp
  | cons r rest ih =>
    intro s
    obtain ⟨h1, h2, h3, h4, h5⟩ := ih (updateStats s r)
    rw [List.foldl_cons]
    refine ⟨?_, ?_, ?_, ?_, ?_⟩
    · rw [h1, updateStats_total_executions, List.length_cons]; omega
    · rw [h2, updateStats_total_tests_run, List.map_cons, List.sum_cons]; omega
    · rw [h3, updateStats_total_passed, List.map_cons, List.sum_cons]; omega
    · rw [h4, updateStats_total_failed, List.map_cons, List.sum_cons]; omega
    · rw [h5, updateStats_total_errors, List.map_cons, List.sum_cons]; omega

/-- C9: every statistics update leaves at most 10 history entries; after
11 sequential suite runs from a fresh agent the history holds exactly the
10 most recent summaries (oldest evicted first) and each aggregate counter
has been incremented by the totals of every suite. -/
theorem stats_history_bounded_fifo (s : Stats) (r : TestSuiteResult)
    (runs : List TestSuiteResult) (hlen : runs.length = 11) :
    (updateStats s r).execution_history.length ≤ 10 ∧
    (runs.foldl updateStats initialStats).execution_history =
      (runs.map runSummary).drop 1 ∧
    (runs.foldl updateStats initialStats).total_executions = 11 ∧
    (runs.foldl updateStats initialStats).total_tests_run =
      (runs.map (fun x => x.total_tests)).sum ∧
    (runs.foldl updateStats initialStats).total_passed =
      (runs.map (fun x => x.passed)).sum ∧
    (runs.foldl updateStats initialStats).total_failed =
      (runs.map (fun x => x.failed)).sum ∧
    (runs.foldl updateStats initialStats).total_errors =
      (runs.map (fun x => x.errors)).sum := by
  obtain ⟨h1, h2, h3, h4, h5⟩ := foldl_updateStats_counters runs initialStats
  have hh := foldl_updateStats_history runs initialStats (by simp [initialStats])
  refine ⟨updateStats_history_length s r, ?_, ?_, ?_, ?_, ?_, ?_⟩
  · rw [hh]
    show lastN 10 ([] ++ runs.map runSummary) = _
    unfold lastN
    rw [List.nil_append, List.length_map, hlen]
  · rw [h1, hlen]; rfl
  · rw [h2]; exact Nat.zero_add _
  · rw [h3]; exact Nat.zero_add _
  · rw [h4]; exact Nat.zero_add _
  · rw [h5]; exact Nat.zero_add _

/-- A fixed suite result for the C9 witness runs. -/
def c9Run : TestSuiteResult :=
  { suite_id := "sX", suite_name := "n", total_tests := 1, passed := 1, failed := 0,
    skipped := 0, errors := 0, total_duration := 0, start_time := "s", end_time := "e",
    test_results := [], artifacts_dir := "a", report_path := none }

/-- Eleven sequential witness runs. -/
def c9Runs : List TestSuiteResult := List.replicate 11 c9Run

/-- Witness for C9: the bound, FIFO eviction and counters evaluated on 11
concrete sequential runs. -/
theorem stats_history_bounded_fifo_witness :
    (updateStats initialStats c9Run).execution_history.length ≤ 10 ∧
    (c9Runs.foldl updateStats initialStats).execution_history =
      (c9Runs.map runSummary).drop 1 ∧
    (c9Runs.foldl updateStats initialStats).total_executions = 11 ∧
    (c9Runs.foldl updateStats initialStats).total_tests_run =
      (c9Runs.map (fun x => x.total_tests)).sum ∧
    (c9Runs.foldl updateStats initialStats).total_passed =
      (c9Runs.map (fun x => x.passed)).sum ∧
    (c9Runs.foldl updateStats initialStats).total_failed =
      (c9Runs.map (fun x => x.failed)).sum ∧
    (c9Runs.foldl updateStats initialStats).total_errors =
      (c9Runs.map (fun x => x.errors)).sum :=
  stats_history_bounded_fifo initialStats c9Run c9Runs rfl

/-! ### C3 -/

/-- C3 counterexample: the suite loop collects the results of the plain
`_execute_single_test_file` (first conjunct), and the claim that the
per-file execution is the retry-wrapped one is false as stated: at
`retries = -1` (an accepted configuration value) the retry wrapper returns
the synthesized retry-exhaustion result while the per-file
execution returns the timeout result. -/
theorem suite_retry_wiring_counterexample :
    suiteFileResults cNoJson noLoc (fun _ => .timeoutExpired) ["f.spec.ts"] =
      executeSingleTestFile cNoJson noLoc "f.spec.ts" "f.spec" .timeoutExpired ∧
    (executeSingleTestFileWithRetry cNoJson noLoc "f.spec.ts" "f.spec"
        .timeoutExpired (-1)).results ≠
      executeSingleTestFile cNoJson noLoc "f.spec.ts" "f.spec" .timeoutExpired :=
  ⟨by decide, by decide⟩

/-- C3 (amended): the suite loop invokes `_execute_single_test_file`
directly, not the retry wrapper; because the per-file execution catches
every exception and never raises, the retry-wrapped execution returns
exactly the results of the unwrapped execution for every `retries ≥ 0`, so the
collected suite results coincide with what the retry-wrapped execution
would produce for all non-negatively configured retries. -/
theorem suite_per_file_is_unwrapped_retry_equivalent (jsonLoads : JsonLoads)
    (locate : Locator) (run : String → RunOutcome) (files : List String)
    (fileName fileStem : String) (outcome : RunOutcome) (maxRetries : Int)
    (h : 0 ≤ maxRetries) :
    suiteFileResults jsonLoads locate run files =
      (files.map (fun p =>
        executeSingleTestFile jsonLoads locate (pathName p) (pathStem (pathName p)) (run p))).flatten ∧
    (executeSingleTestFileWithRetry jsonLoads locate fileName fileStem outcome
        maxRetries).results =
      executeSingleTestFile jsonLoads locate fileName fileStem outcome := by
  refine ⟨suiteFileResults_eq_join jsonLoads locate run files, ?_⟩
  unfold executeSingleTestFileWithRetry runWithRetry
  have h1 : (maxRetries + 1).toNat = maxRetries.toNat + 1 := by omega
  rw [h1]
  rfl

/-- Witness for C3 (amended): a one-file suite and the retry wrapper at
`retries = 2` on a concrete timeout outcome. -/
theorem suite_per_file_is_unwrapped_retry_equivalent_witness :
    suiteFileResults cNoJson noLoc (fun _ => .timeoutExpired) ["g.spec.ts"] =
      (["g.spec.ts"].map (fun p =>
        executeSingleTestFile cNoJson noLoc (pathName p) (pathStem (pathName p))
          ((fun _ => RunOutcome.timeoutExpired) p))).flatten ∧
    (executeSingleTestFileWithRetry cNoJson noLoc "g.spec.ts" "g.spec"
        .timeoutExpired 2).results =
      executeSingleTestFile cNoJson noLoc "g.spec.ts" "g.spec" .timeoutExpired :=
  suite_per_file_is_unwrapped_retry_equivalent cNoJson noLoc
    (fun _ => .timeoutExpired) ["g.spec.ts"] "g.spec.ts" "g.spec" .timeoutExpired 2
    (by norm_num)

/-! ### C8 -/

/-- The lexicographic comparison is total. -/
theorem lexLe_total (a : List Char) : ∀ b, lexLe a b = true ∨ lexLe b a = true := by
  induction a with
  | nil => intro b; left; rfl
  | cons c cs ih =>
    intro b
    cases b with
    | nil => right; rfl
    | cons d ds =>
      rcases Nat.lt_trichotomy c.toNat d.toNat with h | h | h
      · left; simp [lexLe, h]
      · have hcd : ¬ c.toNat < d.toNat := by omega
        have hdc : ¬ d.toNat < c.toNat := by omega
        rcases ih ds with h2 | h2
        · left; simp [lexLe, hcd, hdc, h2]
        · right; simp [lexLe, hcd, hdc, h2]
      · right; simp [lexLe, h]

/-- The lexicographic comparison is transitive. -/
theorem lexLe_trans (a : List Char) :
    ∀ b c, lexLe a b = true → lexLe b c = true → lexLe a c = true := by
  induction a with
  | nil => intro b c _ _; rfl
  | cons x xs ih =>
    intro b c hab hbc
    cases b with
    | nil => simp [lexLe] at hab
    | cons y ys =>
      cases c with
      | nil => simp [lexLe] at hbc
      | cons z zs =>
        simp only [lexLe] at hab hbc ⊢
        by_cases h1 : x.toNat < y.toNat <;> by_cases h2 : y.toNat < z.toNat <;>
          simp only [h1, h2, if_true, if_false] at hab hbc
        · have : x.toNat < z.toNat := by omega
          simp [this]
        · by_cases h3 : z.toNat < y.toNat
          · simp [h3] at hbc
          · have : x.toNat < z.toNat := by omega
            simp [this]
        · by_cases h3 : y.toNat < x.toNat
          · simp [h3] at hab
          · have : x.toNat < z.toNat := by omega
            simp [this]
        · by_cases h3 : y.toNat < x.toNat
          · simp [h3] at hab
          · by_cases h4 : z.toNat < y.toNat
            · simp [h4] at hbc
            · simp only [h3, if_false] at hab
              simp only [h4, if_false] at hbc
              have e1 : ¬ x.toNat < z.toNat := by omega
              have e2 : ¬ z.toNat < x.toNat := by omega
              simp [e1, e2, ih ys zs hab hbc]

/-- Totality of the string order. -/
theorem pyStrLe_total (a b : String) : pyStrLe a b = true ∨ pyStrLe b a = true :=
  lexLe_total a.data b.data

/-- Transitivity of the string order. -/
theorem pyStrLe_trans {a b c : String} (h1 : pyStrLe a b = true)
    (h2 : pyStrLe b c = true) : pyStrLe a c = true :=
  lexLe_trans a.data b.data c.data h1 h2

/-- A list is lexicographically sorted when every element is `pyStrLe`-below
all later ones. -/
abbrev SortedLex (l : List String) : Prop := l.Pairwise (fun a b => pyStrLe a b = true)

/-- Inserting permutes. -/
theorem insertStr_perm (x : String) (l : List String) :
    (insertStr x l).Perm (x :: l) := by
  induction l with
  | nil => exact List.Perm.refl _
  | cons y ys ih =>
    unfold insertStr
    by_cases h : pyStrLe x y = true
    · simp only [h, if_true]
      exact List.Perm.refl _
    · simp only [h, if_false]
      exact ((ih.cons y).trans (List.Perm.swap x y ys))

/-- Inserting preserves sortedness. -/
theorem insertStr_sorted (x : String) (l : List String) (hl : SortedLex l) :
    SortedLex (insertStr x l) := by
  induction l with
  | nil => simp [insertStr, SortedLex]
  | cons y ys ih =>
    obtain ⟨hy, hys⟩ := List.pairwise_cons.mp hl
    unfold insertStr
    by_cases h : pyStrLe x y = true
    · simp only [h, if_true]
      refine List.pairwise_cons.mpr ⟨?_, List.pairwise_cons.mpr ⟨hy, hys⟩⟩
      intro b hb
      rcases List.mem_cons.mp hb with hb | hb
      · exact hb ▸ h
      · exact pyStrLe_trans h (hy b hb)
    · simp only [h, if_false]
      refine List.pairwise_cons.mpr ⟨?_, ih hys⟩
      intro b hb
      have hb2 := (insertStr_perm x ys).mem_iff.mp hb
      rcases List.mem_cons.mp hb2 with hb2 | hb2
      · subst hb2
        rcases pyStrLe_total b y with h2 | h2
        · exact absurd h2 h
        · exact h2
      · exact hy b hb2

/-- The insertion sort permutes. -/
theorem sortStrs_perm (l : List String) : (sortStrs l).Perm l := by
  induction l with
  | nil => exact List.Perm.refl _
  | cons x xs ih =>
    exact (insertStr_perm x (sortStrs xs)).trans (ih.cons x)

/-- The insertion sort sorts. -/
theorem sortStrs_sorted (l : List String) : SortedLex (sortStrs l) := by
  induction l with
  | nil => simp [sortStrs, SortedLex]
  | cons x xs ih => exact insertStr_sorted x (sortStrs xs) ih

/-- C8: discovery output is lexicographically sorted and duplicate-free, is
determined by the directory contents alone (same filesystem view → same
ordered list), and an empty discovery makes `execute_test_suite` fail with
the `ValueError` rather than succeed with an empty suite. -/
theorem discovery_sorted_dedup_deterministic_empty_fails (fs fs2 : FSView)
    (root : String) (jsonLoads : JsonLoads) (locate : Locator)
    (run : String → RunOutcome) (meta : SuiteMeta) :
    SortedLex (findTestFiles fs root) ∧
    (findTestFiles fs root).Nodup ∧
    (fs.rootIsFile = fs2.rootIsFile → fs.rootSuffix = fs2.rootSuffix →
      fs.rootIsDir = fs2.rootIsDir → fs.categoryFiles = fs2.categoryFiles →
      fs.rglobFiles = fs2.rglobFiles →
      findTestFiles fs root = findTestFiles fs2 root) ∧
    (findTestFiles fs root = [] →
      executeTestSuite jsonLoads locate fs run meta root =
        .error (.valueError ("No test files found in " ++ root))) := by
  refine ⟨sortStrs_sorted _, ?_, ?_, ?_⟩
  · exact ((sortStrs_perm _).nodup_iff).mpr (List.nodup_dedup _)
  · intro h1 h2 h3 h4 h5
    cases fs
    cases fs2
    simp only at h1 h2 h3 h4 h5
    subst h1; subst h2; subst h3; subst h4; subst h5
    rfl
  · intro hempty
    unfold executeTestSuite
    rw [hempty]
    rfl

/-- A filesystem view with no test files at all. -/
def c8FsEmpty : FSView :=
  { rootIsFile := false, rootSuffix := "", rootIsDir := true,
    categoryFiles := fun _ => [], rglobFiles := fun _ => [] }

/-- Witness for C8: sortedness, dedup and determinism on the two-file view,
and the empty view makes the suite fail. -/
theorem discovery_sorted_dedup_deterministic_empty_fails_witness :
    SortedLex (findTestFiles c5Fs "r") ∧
    (findTestFiles c5Fs "r").Nodup ∧
    findTestFiles c5Fs "r" = findTestFiles c5Fs "r" ∧
    executeTestSuite cNoJson noLoc c8FsEmpty c5Run cMeta "r" =
      .error (.valueError ("No test files found in " ++ "r")) := by
  obtain ⟨h1, h2, h3, h4⟩ :=
    discovery_sorted_dedup_deterministic_empty_fails c8FsEmpty c8FsEmpty "r" cNoJson
      noLoc c5Run cMeta
  obtain ⟨g1, g2, g3, _⟩ :=
    discovery_sorted_dedup_deterministic_empty_fails c5Fs c5Fs "r" cNoJson
      noLoc c5Run cMeta
  exact ⟨g1, g2, g3 rfl rfl rfl rfl rfl, h4 (by decide)⟩

/-! ### C2: well-formed structured reports -/

/-- Specification-side view of one runner attempt of a well-formed
structured report: a status string, a duration in milliseconds and, when
present, the `error.message` field. -/
structure AttemptW where
  statusStr : String
  durationMs : ℚ
  failMessage : Option String

/-- The JSON node of one attempt. -/
def attemptJ (a : AttemptW) : JVal :=
  .jobj [("status", .jstr a.statusStr), ("duration", .jnum a.durationMs),
         ("error", .jobj (match a.failMessage with
           | some m => [("message", .jstr m)]
           | none => []))]

/-- Specification-side view of one leaf test. -/
structure TestW where
  testId : String
  title : String
  attempts : List AttemptW

/-- The JSON node of one leaf test. -/
def testJ (t : TestW) : JVal :=
  .jobj [("id", .jstr t.testId), ("title", .jstr t.title),
         ("results", .jarr (t.attempts.map attemptJ))]

/-- Specification-side view of one spec node. -/
structure SpecW where
  tests : List TestW

/-- The JSON node of one spec. -/
def specJ (sp : SpecW) : JVal := .jobj [("tests", .jarr (sp.tests.map testJ))]

/-- Specification-side view of one suite node. -/
structure SuiteW where
  specs : List SpecW

/-- The JSON node of one suite. -/
def suiteJ (s : SuiteW) : JVal := .jobj [("specs", .jarr (s.specs.map specJ))]

/-- The JSON node of a whole well-formed structured report. -/
def reportJ (report : List SuiteW) : JVal :=
  .jobj [("suites", .jarr (report.map suiteJ))]

/-- Did this attempt fail? -/
def failedAtt (a : AttemptW) : Bool := a.statusStr = "failed"

/-- Does this attempt touch the status (failed or skipped)? -/
def relevantAtt (a : AttemptW) : Bool :=
  a.statusStr = "failed" || a.statusStr = "skipped"

/-- The status left by the attempt loop starting from `st0`: the one
dictated by the last failed-or-skipped attempt. -/
def statusFrom (st0 : TestStatus) (atts : List AttemptW) : TestStatus :=
  match (atts.filter relevantAtt).getLast? with
  | none => st0
  | some a => if failedAtt a then .failed else .skipped

/-- The status of a leaf test: last failed-or-skipped attempt wins, else
`Passed`. -/
def specStatus (atts : List AttemptW) : TestStatus := statusFrom .passed atts

/-- The error message left by the attempt loop starting from `m0`: the last
failing attempt, defaulting to "Test failed". -/
def msgFrom (m0 : Option String) (atts : List AttemptW) : Option String :=
  match (atts.filter failedAtt).getLast? with
  | none => m0
  | some a => some (a.failMessage.getD "Test failed")

/-- The error message of a leaf test. -/
def specErrMsg (atts : List AttemptW) : Option String := msgFrom none atts

/-- The summed duration of a leaf test in seconds. -/
def specDuration (atts : List AttemptW) : ℚ :=
  (atts.map (fun a => a.durationMs / 1000)).sum

/-- The `TestResult` a well-formed leaf test produces. -/
def specTestResult (locate : Locator) (t : TestW) : TestResult :=
  { test_id := t.testId, test_name := t.title, status := specStatus t.attempts,
    duration := specDuration t.attempts, error_message := specErrMsg t.attempts,
    screenshot_path := locate t.testId .screenshot,
    video_path := locate t.testId .video, retry_count := 0 }

/-- The `TestResult` list of a well-formed structured report, in document
order. -/
def specResults (locate : Locator) (report : List SuiteW) : List TestResult :=
  (report.map (fun s =>
    (s.specs.map (fun sp => sp.tests.map (specTestResult locate))).flatten)).flatten

/-- Bind of an `ok` computes. -/
theorem except_bind_ok {α β : Type} (x : α) (f : α → Except PyExn β) :
    (Except.ok x >>= f) = f x := rfl

/-- The last element of a cons in terms of the tail. -/
theorem getLast?_cons_eq {α : Type} (a : α) (l : List α) :
    (a :: l).getLast? = some (l.getLast?.getD a) := by
  induction l generalizing a with
  | nil => rfl
  | cons b t ih =>
    rw [List.getLast?_cons_cons, ih b]
    rfl

/-- One pass of the attempt loop on a well-formed attempt node. -/
theorem processAttempt_attemptJ (st : AttemptState) (a : AttemptW) :
    processAttempt st (attemptJ a) = .ok
      { status := if failedAtt a then .failed
                  else if a.statusStr = "skipped" then .skipped else st.status,
        error_message := if failedAtt a then some (a.failMessage.getD "Test failed")
                         else st.error_message,
        duration := st.duration + a.durationMs / 1000 } := by
  by_cases hf : a.statusStr = "failed"
  · cases hm : a.failMessage <;>
      simp [processAttempt, attemptJ, jget, jdivMs, pyEqStr, jstrOf, failedAtt,
        List.lookup, hf, hm, except_bind_ok]
  · by_cases hs : a.statusStr = "skipped" <;>
      simp [processAttempt, attemptJ, jget, jdivMs, pyEqStr, jstrOf, failedAtt,
        List.lookup, hf, hs, except_bind_ok]

/-- Unfolding `statusFrom` through one attempt. -/
theorem statusFrom_cons (st0 : TestStatus) (a : AttemptW) (atts : List AttemptW) :
    statusFrom st0 (a :: atts) =
      statusFrom (if failedAtt a then .failed
                  else if a.statusStr = "skipped" then .skipped else st0) atts := by
  unfold statusFrom
  by_cases hr : relevantAtt a = true
  · rw [List.filter_cons_of_pos hr, getLast?_cons_eq]
    cases hlast : (atts.filter relevantAtt).getLast? with
    | none =>
      simp only [hlast, Option.getD_none]
      by_cases hf : failedAtt a = true
      · simp [hf]
      · have hs : a.statusStr = "skipped" := by
          unfold relevantAtt at hr
          unfold failedAtt at hf
          simp at hr hf
          tauto
        simp [hf, hs]
    | some b => simp only [hlast, Option.getD_some]
  · rw [List.filter_cons_of_neg (by simpa using hr)]
    have hf : failedAtt a = false := by
      unfold relevantAtt at hr
      unfold failedAtt
      simp at hr ⊢
      tauto
    have hs : ¬ a.statusStr = "skipped" := by
      unfold relevantAtt at hr
      simp at hr
      tauto
    simp [hf, hs]

/-- Unfolding `msgFrom` through one attempt. -/
theorem msgFrom_cons (m0 : Option String) (a : AttemptW) (atts : List AttemptW) :
    msgFrom m0 (a :: atts) =
      msgFrom (if failedAtt a then some (a.failMessage.getD "Test failed") else m0)
        atts := by
  unfold msgFrom
  by_cases hf : failedAtt a = true
  · rw [List.filter_cons_of_pos hf, getLast?_cons_eq]
    cases hlast : (atts.filter failedAtt).getLast? with
    | none => simp [hlast, hf]
    | some b => simp [hlast]
  · rw [List.filter_cons_of_neg (by simpa using hf)]
    simp [hf]

/-- The attempt loop on a list of well-formed attempts. -/
theorem foldAttempts (atts : List AttemptW) :
    ∀ st : AttemptState,
      (atts.map attemptJ).foldlM processAttempt st = .ok
        ⟨statusFrom st.status atts, msgFrom st.error_message atts,
         st.duration + specDuration atts⟩ := by
  induction atts with
  | nil =>
    intro st
    simp only [List.map_nil, List.foldlM_nil, statusFrom, msgFrom, List.filter_nil,
      List.getLast?_nil, specDuration, List.map_nil, List.sum_nil, add_zero]
    rfl
  | cons a rest ih =>
    intro st
    rw [List.map_cons, List.foldlM_cons, processAttempt_attemptJ, except_bind_ok, ih]
    rw [statusFrom_cons, msgFrom_cons]
    have hd : st.duration + a.durationMs / 1000 + specDuration rest =
        st.duration + specDuration (a :: rest) := by
      unfold specDuration
      rw [List.map_cons, List.sum_cons]
      ring
    rw [hd]

/-- The walker on one well-formed leaf test. -/
theorem processTest_testJ (locate : Locator) (t : TestW) :
    processTest locate (testJ t) = .ok (specTestResult locate t) := by
  have hfold := foldAttempts t.attempts ⟨.passed, none, 0⟩
  simp [processTest, testJ, jget, List.lookup, jiter, jstrOf, except_bind_ok, hfold,
    specTestResult, specStatus, specErrMsg]

/-- The test loop on well-formed tests. -/
theorem runTests_map (locate : Locator) (ts : List TestW) :
    ∀ acc : List TestResult,
      runTests locate acc (ts.map testJ) =
        (acc ++ ts.map (specTestResult locate), none) := by
  induction ts with
  | nil => intro acc; simp [runTests]
  | cons t rest ih =>
    intro acc
    simp [runTests, processTest_testJ, ih, List.append_assoc]

/-- The test loop stops at the first bad test, keeping what was appended. -/
theorem runTests_abort (locate : Locator) (ts : List TestW) (bad : JVal)
    (rest : List JVal) (e : PyExn) (hbad : processTest locate bad = .error e) :
    ∀ acc : List TestResult,
      runTests locate acc (ts.map testJ ++ bad :: rest) =
        (acc ++ ts.map (specTestResult locate), some e) := by
  induction ts with
  | nil =>
    intro acc
    simp [runTests, hbad]
  | cons t ts2 ih =>
    intro acc
    simp [runTests, processTest_testJ, ih, List.append_assoc]

/-- The spec loop on well-formed specs. -/
theorem runSpecs_map (locate : Locator) (sps : List SpecW) :
    ∀ acc : List TestResult,
      runSpecs locate acc (sps.map specJ) =
        (acc ++ (sps.map (fun sp => sp.tests.map (specTestResult locate))).flatten,
         none) := by
  induction sps with
  | nil => intro acc; simp [runSpecs]
  | cons sp rest ih =>
    intro acc
    have hsp : specTests (specJ sp) = .ok (sp.tests.map testJ) := by
      simp [specTests, specJ, jget, List.lookup, jiter, except_bind_ok]
    simp [runSpecs, hsp, runTests_map, ih, List.append_assoc]

/-- The suite loop on well-formed suites. -/
theorem runSuites_map (locate : Locator) (suites : List SuiteW) :
    ∀ acc : List TestResult,
      runSuites locate acc (suites.map suiteJ) =
        (acc ++ specResults locate suites, none) := by
  induction suites with
  | nil => intro acc; simp [runSuites, specResults]
  | cons s rest ih =>
    intro acc
    have hs : suiteSpecs (suiteJ s) = .ok (s.specs.map specJ) := by
      simp [suiteSpecs, suiteJ, jget, List.lookup, jiter, except_bind_ok]
    simp [runSuites, hs, runSpecs_map, ih, specResults, List.append_assoc]

/-- C2 (amended): on every well-formed structured report the parser emits
one `TestResult` per leaf test in document order, whose status is decided
by the LAST failed-or-skipped attempt (`Failed` if it failed, `Skipped` if
it was skipped, else `Passed`), whose duration is the sum of all attempt
durations converted from milliseconds to seconds, and whose error message
is the LAST failing attempt, defaulting to "Test failed". -/
theorem parse_json_per_test_amended (locate : Locator) (report : List SuiteW) :
    parsePlaywrightJsonResults locate (reportJ report) = specResults locate report := by
  have ht : topSuites (reportJ report) = .ok (report.map suiteJ) := by
    simp [topSuites, reportJ, jget, List.lookup, jiter, except_bind_ok]
  unfold parsePlaywrightJsonResults
  simp only [ht, runSuites_map, List.nil_append]

/-- The failing attempt of the C2 counterexample. -/
def c2Att1 : JVal :=
  .jobj [("status", .jstr "failed"), ("duration", .jnum 0),
         ("error", .jobj [("message", .jstr "boom")])]

/-- The subsequent skipped attempt of the C2 counterexample. -/
def c2Att2 : JVal := .jobj [("status", .jstr "skipped"), ("duration", .jnum 0)]

/-- A structured report whose single test has a failed attempt followed by
a skipped attempt. -/
def c2Json : JVal :=
  .jobj [("suites", .jarr [.jobj [("specs", .jarr [.jobj
    [("tests", .jarr [.jobj [("id", .jstr "t1"), ("title", .jstr "T1"),
      ("results", .jarr [c2Att1, c2Att2])]])]])]])]

/-- C2 counterexample: the first attempt of the input failed (third conjunct),
so the claim as stated demands status `Failed`, but the parser returns
status `Skipped` (a later skipped attempt overwrites a failure) while its
error message is that of the failing attempt. -/
theorem parse_json_status_counterexample :
    (parsePlaywrightJsonResults noLoc c2Json).map TestResult.status =
      [TestStatus.skipped] ∧
    (parsePlaywrightJsonResults noLoc c2Json).map TestResult.error_message =
      [some "boom"] ∧
    jget c2Att1 "status" .jnull = .ok (.jstr "failed") :=
  ⟨by decide, by decide, rfl⟩

/-! ### C7 -/

/-- The stdout of the C7 counterexample: a single candidate JSON line whose
`suites` entry is a number, so the walker raises `AttributeError` on its
first `.get`. -/
def c7Proc : CompletedProcess := ⟨"\x7b\"suites\": [5]\x7d", "", 1⟩

/-- A `json.loads` oracle agreeing with Python on the C7 inputs. -/
def c7Loads : JsonLoads := fun s =>
  if s = "\x7b\"suites\": [5]\x7d" then .ok (.jobj [("suites", .jarr [.jnum 5])])
  else if s = "\x7b\"suites\": [\x7b\"specs\": [\x7b\"tests\": [7]\x7d]\x7d]\x7d" then
    .ok (.jobj [("suites", .jarr [.jobj [("specs", .jarr [.jobj
      [("tests", .jarr [.jnum 7])]])]])])
  else .error (.jsonDecodeError "Expecting value")

/-- C7 counterexample: parsing this output raises an `AttributeError`
inside the JSON walker (second conjunct), yet the parser returns zero
results — not one `Error` result naming the parse failure. -/
theorem parse_exception_empty_results_counterexample :
    parsePlaywrightResults c7Loads noLoc c7Proc "f.spec.ts" "f.spec" = [] ∧
    (runSuites noLoc [] [.jnum 5]).snd =
      some (.attributeError "object has no attribute get") :=
  ⟨by decide, rfl⟩

/-- C7 (amended): an exception raised while walking the structured report
is caught inside the walker, and the parser returns exactly the results of
the leaf tests completed before the exception (possibly none) instead of a
single `Error` result; only an exception reaching the outer handler (none
of which the walker raises) becomes a single `Error` result naming the failure. -/
theorem parse_exception_partial_results_amended (jsonLoads : JsonLoads)
    (locate : Locator) (cp : CompletedProcess) (fileName fileStem line : String)
    (good : List TestW) (bad : JVal) (rest : List JVal) (e : PyExn)
    (hline : firstCandidate cp.stdout = some line)
    (hload : jsonLoads line = .ok (.jobj [("suites", .jarr [.jobj [("specs", .jarr
      [.jobj [("tests", .jarr (good.map testJ ++ bad :: rest))]])]])]))
    (hbad : processTest locate bad = .error e) :
    parsePlaywrightResults jsonLoads locate cp fileName fileStem =
      good.map (specTestResult locate) := by
  unfold parsePlaywrightResults parsePlaywrightResultsBody
  simp only [hline, hload]
  unfold parsePlaywrightJsonResults
  have ht : topSuites (.jobj [("suites", .jarr [.jobj [("specs", .jarr
      [.jobj [("tests", .jarr (good.map testJ ++ bad :: rest))]])]])]) =
      .ok [.jobj [("specs", .jarr [.jobj
        [("tests", .jarr (good.map testJ ++ bad :: rest))]])]] := by
    simp [topSuites, jget, List.lookup, jiter, except_bind_ok]
  simp only [ht]
  unfold runSuites
  have hs : suiteSpecs (.jobj [("specs", .jarr [.jobj
      [("tests", .jarr (good.map testJ ++ bad :: rest))]])]) =
      .ok [.jobj [("tests", .jarr (good.map testJ ++ bad :: rest))]] := by
    simp [suiteSpecs, jget, List.lookup, jiter, except_bind_ok]
  simp only [hs]
  unfold runSpecs
  have hsp : specTests (.jobj [("tests", .jarr (good.map testJ ++ bad :: rest))]) =
      .ok (good.map testJ ++ bad :: rest) := by
    simp [specTests, jget, List.lookup, jiter, except_bind_ok]
  simp only [hsp, runTests_abort locate good bad rest e hbad, List.nil_append]

/-- Witness output for C7 (amended): one well-formed test, then a bad
(non-dictionary) test node. -/
def c7wProc : CompletedProcess :=
  ⟨"\x7b\"suites\": [\x7b\"specs\": [\x7b\"tests\": [7]\x7d]\x7d]\x7d", "", 1⟩

/-- Witness for C7 (amended): the walker stops at the bad test node and the
parser returns the zero completed results. -/
theorem parse_exception_partial_results_amended_witness :
    parsePlaywrightResults c7Loads noLoc c7wProc "g.spec.ts" "g.spec" =
      ([] : List TestW).map (specTestResult noLoc) :=
  parse_exception_partial_results_amended c7Loads noLoc c7wProc "g.spec.ts" "g.spec"
    "\x7b\"suites\": [\x7b\"specs\": [\x7b\"tests\": [7]\x7d]\x7d]\x7d" [] (.jnum 7)
    [] (.attributeError "object has no attribute get") (by decide) rfl rfl

/-! ### C10 -/

/-- C10: report generation fails (with the Markdown success-rate division
by zero) exactly on suites with `total_tests = 0`; for every suite with
`total_tests > 0` it returns the three reports. -/
theorem markdown_report_zero_division (r : TestSuiteResult) :
    generateExecutionReport r = .error (.zeroDivisionError "division by zero") ↔
      r.total_tests = 0 := by
  unfold generateExecutionReport generateMarkdownReport pydiv
  by_cases h : (r.total_tests : ℚ) = 0
  · have h0 : r.total_tests = 0 := by exact_mod_cast h
    simp [h, h0, Except.bind]
  · have h0 : ¬ r.total_tests = 0 := by
      intro hc
      exact h (by exact_mod_cast hc)
    simp [h, h0, Except.bind]

end QA
